import Mathlib

set_option maxRecDepth 8000

/-!
Verification of the StellaBill subscription-vault billing core.

The definitions below shallowly embed the Rust sources of
`contracts/subscription_vault`:

* `charge_one` embeds `src/charge_core.rs` (the single-charge engine);
* `do_batch_charge` embeds `src/admin.rs::do_batch_charge`;
* `cancel_subscription` embeds `src/lib.rs::cancel_subscription`;
* the status transition table, the top-up estimator and the numeric error
  codes live in repository modules (`state_machine.rs`, `queries.rs`,
  `types.rs`) whose sources are not available here; they are modelled from
  the specification, as marked on each definition.

Machine integers are embedded as `Nat` (u64/u32) and `Int` (i128) with
explicit range checks where the source uses checked arithmetic.
-/

namespace StellaBill

/-- Maximum value of the `u64` time type. -/
def U64_MAX : Nat := 2 ^ 64 - 1

/-- Minimum value of `i128`. -/
def I128_MIN : Int := -(2 ^ 127)

/-- Maximum value of `i128`. -/
def I128_MAX : Int := 2 ^ 127 - 1

/-- `u64::checked_add`: `some (a + b)` unless the sum leaves the u64 range. -/
def u64_checked_add (a b : Nat) : Option Nat :=
  if a + b ≤ U64_MAX then some (a + b) else none

/-- `i128::checked_sub`: `some (a - b)` unless the difference leaves the
i128 range. -/
def i128_checked_sub (a b : Int) : Option Int :=
  if I128_MIN ≤ a - b ∧ a - b ≤ I128_MAX then some (a - b) else none

/-- Subscription lifecycle states (`types.rs::SubscriptionStatus`, the
five-variant version consumed by `charge_core.rs`). -/
inductive SubscriptionStatus where
  | Active
  | Paused
  | Cancelled
  | InsufficientBalance
  | GracePeriod
deriving DecidableEq, Fintype

/-- The contract error taxonomy (`types.rs::Error` union of the variants
used across `charge_core.rs`, `admin.rs` and `lib.rs`). -/
inductive Error where
  | NotFound
  | Unauthorized
  | NotActive
  | IntervalNotElapsed
  | InsufficientBalance
  | Overflow
  | InvalidStatusTransition
  | AlreadyInitialized
  | InvalidRecoveryAmount
deriving DecidableEq, Fintype

/-- One subscription record (`lib.rs`/`types.rs::Subscription`).
Identities are embedded as opaque naturals. -/
structure Subscription where
  subscriber : Nat
  merchant : Nat
  amount : Int
  interval_seconds : Nat
  last_payment_timestamp : Nat
  status : SubscriptionStatus
  prepaid_balance : Int
  usage_enabled : Bool
deriving DecidableEq

/-- Modelled from the spec: the status transition table of §4.1
(`state_machine.rs::get_allowed_transitions` is not under `src/`; only its
tests and its caller `charge_core.rs` are). Directed edges only. -/
def get_allowed_transitions (s : SubscriptionStatus) : List SubscriptionStatus :=
  match s with
  | .Active => [.Paused, .Cancelled, .InsufficientBalance, .GracePeriod]
  | .Paused => [.Active, .Cancelled]
  | .GracePeriod => [.Active, .InsufficientBalance]
  | .InsufficientBalance => [.Active, .Cancelled]
  | .Cancelled => []

/-- Modelled from the spec: `state_machine.rs::can_transition` — a
transition is possible when it is a self-loop or a table edge. -/
def can_transition (f t : SubscriptionStatus) : Bool :=
  f = t || (get_allowed_transitions f).contains t

/-- Modelled from the spec: `state_machine.rs::validate_status_transition` —
the self-transition short-circuit precedes the table lookup; any other
pair not in the table fails with `InvalidStatusTransition`. -/
def validate_status_transition (f t : SubscriptionStatus) :
    Except Error Unit :=
  if f = t then .ok ()
  else if (get_allowed_transitions f).contains t then .ok ()
  else .error .InvalidStatusTransition

/-- Outcome of one charge attempt, recording both the returned value and
the storage effect: `ok s` persists `s` and returns success; `errNoWrite e`
returns `e` without touching storage; `errWrite e s` persists `s` and still
returns `e` (the grace-period branches of `charge_core.rs`). -/
inductive ChargeOutcome where
  | ok (persisted : Subscription)
  | errNoWrite (e : Error)
  | errWrite (e : Error) (persisted : Subscription)
deriving DecidableEq

/-- Embedding of `charge_core.rs::charge_one`.  `sub?` is the stored record
for the requested id (`none` embeds a missing id, which
`queries.rs::get_subscription` reports as `NotFound`); `grace_period` is the
configured grace duration (`admin.rs::get_grace_period`, default 0); `now`
is the ledger timestamp. -/
def charge_one (sub? : Option Subscription) (grace_period : Nat)
    (now : Nat) : ChargeOutcome :=
  match sub? with
  | none => .errNoWrite .NotFound
  | some sub =>
    if sub.status ≠ .Active ∧ sub.status ≠ .GracePeriod then
      .errNoWrite .NotActive
    else
      match u64_checked_add sub.last_payment_timestamp sub.interval_seconds with
      | none => .errNoWrite .Overflow
      | some next_allowed =>
        if now < next_allowed then
          .errNoWrite .IntervalNotElapsed
        else if sub.prepaid_balance < sub.amount then
          match u64_checked_add next_allowed grace_period with
          | none => .errNoWrite .Overflow
          | some grace_expires =>
            if now < grace_expires then
              if sub.status ≠ .GracePeriod then
                match validate_status_transition sub.status .GracePeriod with
                | .error e => .errNoWrite e
                | .ok _ =>
                  .errWrite .InsufficientBalance
                    { sub with status := .GracePeriod }
              else
                .errNoWrite .InsufficientBalance
            else
              match validate_status_transition sub.status .InsufficientBalance with
              | .error e => .errNoWrite e
              | .ok _ =>
                .errWrite .InsufficientBalance
                  { sub with status := .InsufficientBalance }
        else
          match i128_checked_sub sub.prepaid_balance sub.amount with
          | none => .errNoWrite .Overflow
          | some newBal =>
            let sub1 : Subscription :=
              { sub with prepaid_balance := newBal,
                         last_payment_timestamp := now }
            if sub1.status = .GracePeriod then
              match validate_status_transition sub1.status .Active with
              | .error e => .errNoWrite e
              | .ok _ => .ok { sub1 with status := .Active }
            else
              .ok sub1

/-- Outcome of `cancel_subscription`: `ok none` is success without a
storage write, `ok (some s)` is success persisting `s`. -/
inductive CancelOutcome where
  | ok (persisted? : Option Subscription)
  | err (e : Error)
deriving DecidableEq

/-- Embedding of `lib.rs::cancel_subscription` (after the host-level
`authorizer.require_auth()`): already-Cancelled records short-circuit to
success before the subscriber/merchant check. -/
def cancel_subscription (sub? : Option Subscription) (authorizer : Nat) :
    CancelOutcome :=
  match sub? with
  | none => .err .NotFound
  | some sub =>
    if sub.status = .Cancelled then
      .ok none
    else if authorizer ≠ sub.subscriber ∧ authorizer ≠ sub.merchant then
      .err .Unauthorized
    else
      .ok (some { sub with status := .Cancelled })

/-- Modelled from the spec: `queries.rs::estimate_topup_for_intervals` is
not under `src/` (only its tests are).  `NotFound` on a missing id;
otherwise `max(amount * num_intervals - prepaid_balance, 0)`, a pure
read-only projection. -/
def estimate_topup_for_intervals (sub? : Option Subscription)
    (num_intervals : Nat) : Except Error Int :=
  match sub? with
  | none => .error .NotFound
  | some sub =>
    .ok (max (sub.amount * (num_intervals : Int) - sub.prepaid_balance) 0)

/-- Modelled from the spec: `types.rs::Error::to_code` is not under `src/`.
The spec fixes only that each error has a stable nonzero numeric code
(`error_code == 0` iff success); codes pinned by `src/` are kept
(`NotFound = 404`, `Unauthorized = 401` from `lib.rs`,
`InvalidStatusTransition = 400` from the `#400` panics in `test.rs`), the
rest are representative distinct nonzero values. -/
def Error.to_code : Error → Nat
  | .NotFound => 404
  | .Unauthorized => 401
  | .NotActive => 410
  | .IntervalNotElapsed => 425
  | .InsufficientBalance => 402
  | .Overflow => 500
  | .InvalidStatusTransition => 400
  | .AlreadyInitialized => 409
  | .InvalidRecoveryAmount => 422

/-- One element of the batch-charge result list (`types.rs::BatchChargeResult`). -/
structure BatchChargeResult where
  success : Bool
  error_code : Nat
deriving DecidableEq

/-- The instance-storage subscription map, keyed by id. -/
def Store : Type := Nat → Option Subscription

/-- Storage write of one subscription record. -/
def store_set (st : Store) (id : Nat) (sub : Subscription) : Store :=
  fun k => if k = id then some sub else st k

/-- One iteration of the `do_batch_charge` loop: charge `id` against the
current store, produce its `BatchChargeResult` and the evolved store. -/
def apply_charge (st : Store) (grace_period now : Nat) (id : Nat) :
    BatchChargeResult × Store :=
  match charge_one (st id) grace_period now with
  | .ok s => ({ success := true, error_code := 0 }, store_set st id s)
  | .errNoWrite e => ({ success := false, error_code := e.to_code }, st)
  | .errWrite e s =>
    ({ success := false, error_code := e.to_code }, store_set st id s)

/-- The sequential loop of `admin.rs::do_batch_charge`: every id is
processed in order, each against the store as evolved by its predecessors;
failures never abort the iteration. -/
def batch_charge_loop (st : Store) (grace_period now : Nat) :
    List Nat → List BatchChargeResult
  | [] => []
  | id :: rest =>
    let step := apply_charge st grace_period now id
    step.1 :: batch_charge_loop step.2 grace_period now rest

/-- Embedding of `admin.rs::do_batch_charge`: `admin?` is the configured
administrator read by `require_admin` (`none` embeds an unset admin key,
rejected with `Unauthorized` before any item is processed; the subsequent
`require_auth()` on that address is enforced by the host). -/
def do_batch_charge (admin? : Option Nat) (st : Store)
    (grace_period now : Nat) (ids : List Nat) :
    Except Error (List BatchChargeResult) :=
  match admin? with
  | none => .error .Unauthorized
  | some _ => .ok (batch_charge_loop st grace_period now ids)

instance : DecidableEq (Except Error Unit) :=
  fun a b =>
    match a, b with
    | .ok x, .ok y => .isTrue (by cases x; cases y; rfl)
    | .error e, .error f =>
      if h : e = f then .isTrue (by rw [h]) else .isFalse (by simp [h])
    | .ok _, .error _ => .isFalse (by simp)
    | .error _, .ok _ => .isFalse (by simp)

/-- The storage effect of a charge outcome: the record persisted by the
call, if any. -/
def persisted_of : ChargeOutcome → Option Subscription
  | .ok s => some s
  | .errNoWrite _ => none
  | .errWrite _ s => some s

/-- Concrete record used by the C1 witness: Active, funds cover the
amount, interval elapsed. -/
def w1sub : Subscription :=
  { subscriber := 1, merchant := 2, amount := 5, interval_seconds := 10,
    last_payment_timestamp := 100, status := .Active,
    prepaid_balance := 12, usage_enabled := false }

/-- Concrete record used by the C2 witness: Active but short of funds. -/
def w2subActive : Subscription :=
  { subscriber := 1, merchant := 2, amount := 5, interval_seconds := 10,
    last_payment_timestamp := 100, status := .Active,
    prepaid_balance := 2, usage_enabled := false }

/-- Concrete record used by the C2 witness: GracePeriod, short of funds. -/
def w2subGrace : Subscription :=
  { subscriber := 1, merchant := 2, amount := 5, interval_seconds := 10,
    last_payment_timestamp := 100, status := .GracePeriod,
    prepaid_balance := 2, usage_enabled := false }

/-- Concrete record used by the C5 witness: timestamp sum overflows u64. -/
def w5subLate : Subscription :=
  { subscriber := 1, merchant := 2, amount := 5, interval_seconds := 1,
    last_payment_timestamp := 2 ^ 64 - 1, status := .Active,
    prepaid_balance := 12, usage_enabled := false }

/-- Concrete record used by the C5 witness: insufficient funds and a grace
window whose end overflows u64. -/
def w5subGrace : Subscription :=
  { subscriber := 1, merchant := 2, amount := 5, interval_seconds := 1,
    last_payment_timestamp := 0, status := .Active,
    prepaid_balance := 2, usage_enabled := false }

/-- Concrete record persisted by the C9 witness charge. -/
def w9persisted : Subscription :=
  { subscriber := 1, merchant := 2, amount := 5, interval_seconds := 10,
    last_payment_timestamp := 110, status := .Active,
    prepaid_balance := 7, usage_enabled := false }

/-- Concrete record used by the C4 witness: Paused, ample funds, elapsed
time, and a timestamp sum that would overflow u64. -/
def w4sub : Subscription :=
  { subscriber := 1, merchant := 2, amount := 5, interval_seconds := 2 ^ 64,
    last_payment_timestamp := 2 ^ 64, status := .Paused,
    prepaid_balance := 100, usage_enabled := false }

/-- Concrete record used by the C10 witness: already Cancelled. -/
def w10sub : Subscription :=
  { subscriber := 1, merchant := 2, amount := 5, interval_seconds := 10,
    last_payment_timestamp := 100, status := .Cancelled,
    prepaid_balance := 12, usage_enabled := false }

/-- Concrete record used by the C8 witness: amount 10, balance 30. -/
def w8sub : Subscription :=
  { subscriber := 1, merchant := 2, amount := 10, interval_seconds := 10,
    last_payment_timestamp := 100, status := .Active,
    prepaid_balance := 30, usage_enabled := false }

/-! ## Helper lemmas (shared across claims) -/

/-- Every error carries a nonzero numeric code. -/
lemma to_code_ne_zero (e : Error) : e.to_code ≠ 0 := by
  cases e <;> simp [Error.to_code]

/-- Each result of the batch loop satisfies the code/success correspondence. -/
lemma batch_charge_loop_code_iff (grace_period now : Nat) :
    ∀ (ids : List Nat) (st : Store) (r : BatchChargeResult),
      r ∈ batch_charge_loop st grace_period now ids →
      (r.error_code = 0 ↔ r.success = true) := by
  intro ids
  induction ids with
  | nil => intro st r hr; simp [batch_charge_loop] at hr
  | cons id rest ih =>
    intro st r hr
    simp only [batch_charge_loop, List.mem_cons] at hr
    rcases hr with hr | hr
    · subst hr
      unfold apply_charge
      cases hc : charge_one (st id) grace_period now with
      | ok s => simp
      | errNoWrite e => simp [to_code_ne_zero e]
      | errWrite e s => simp [to_code_ne_zero e]
    · exact ih _ _ hr

/-- Closed form of the success path of `charge_one`: with an eligible
status, sufficient in-range funds and an elapsed interval, the charge
persists the deduction, re-anchors the timestamp to `now` and lands on
`Active`. -/
lemma charge_one_success_eq (sub : Subscription) (grace_period now : Nat)
    (hstat : sub.status = .Active ∨ sub.status = .GracePeriod)
    (hamt : 0 < sub.amount)
    (hbal : sub.amount ≤ sub.prepaid_balance)
    (hbalmax : sub.prepaid_balance ≤ I128_MAX)
    (hsum : sub.last_payment_timestamp + sub.interval_seconds ≤ U64_MAX)
    (hnow : sub.last_payment_timestamp + sub.interval_seconds ≤ now) :
    charge_one (some sub) grace_period now =
      .ok { sub with prepaid_balance := sub.prepaid_balance - sub.amount,
                     last_payment_timestamp := now,
                     status := .Active } := by
  have hadd : u64_checked_add sub.last_payment_timestamp sub.interval_seconds
      = some (sub.last_payment_timestamp + sub.interval_seconds) := by
    simp [u64_checked_add, hsum]
  have hlt : ¬ now < sub.last_payment_timestamp + sub.interval_seconds := by
    omega
  have hblt : ¬ sub.prepaid_balance < sub.amount := not_lt.mpr hbal
  have hsub : i128_checked_sub sub.prepaid_balance sub.amount
      = some (sub.prepaid_balance - sub.amount) := by
    have h1 : I128_MIN ≤ sub.prepaid_balance - sub.amount := by
      have h0 : I128_MIN ≤ (0 : Int) := by norm_num [I128_MIN]
      omega
    have h2 : sub.prepaid_balance - sub.amount ≤ I128_MAX := by omega
    simp [i128_checked_sub, h1, h2]
  rcases hstat with h | h
  · simp [charge_one, h, hadd, hlt, hblt, hsub]
  · simp [charge_one, h, hadd, hlt, hblt, hsub, validate_status_transition,
      get_allowed_transitions]

/-- Closed form of the non-active rejection branch of `charge_one`. -/
lemma charge_one_not_active_eq (sub : Subscription) (grace_period now : Nat)
    (hstat : sub.status = .Paused ∨ sub.status = .Cancelled ∨
      sub.status = .InsufficientBalance) :
    charge_one (some sub) grace_period now = .errNoWrite .NotActive := by
  rcases hstat with h | h | h <;> simp [charge_one, h]

/-- Closed form of the timestamp-overflow branch of `charge_one`. -/
lemma charge_one_ts_overflow_eq (sub : Subscription) (grace_period now : Nat)
    (hstat : sub.status = .Active ∨ sub.status = .GracePeriod)
    (hov : U64_MAX < sub.last_payment_timestamp + sub.interval_seconds) :
    charge_one (some sub) grace_period now = .errNoWrite .Overflow := by
  have hadd : u64_checked_add sub.last_payment_timestamp
      sub.interval_seconds = none := by
    simp [u64_checked_add]
    omega
  rcases hstat with h | h <;> simp [charge_one, h, hadd]

/-- Closed form of the interval-rejection branch of `charge_one`. -/
lemma charge_one_interval_eq (sub : Subscription) (grace_period now : Nat)
    (hstat : sub.status = .Active ∨ sub.status = .GracePeriod)
    (hsum : sub.last_payment_timestamp + sub.interval_seconds ≤ U64_MAX)
    (hlt : now < sub.last_payment_timestamp + sub.interval_seconds) :
    charge_one (some sub) grace_period now =
      .errNoWrite .IntervalNotElapsed := by
  have hadd : u64_checked_add sub.last_payment_timestamp sub.interval_seconds
      = some (sub.last_payment_timestamp + sub.interval_seconds) := by
    simp [u64_checked_add, hsum]
  rcases hstat with h | h <;> simp [charge_one, h, hadd, hlt]

/-- Closed form of the grace-window-overflow branch of `charge_one`. -/
lemma charge_one_grace_overflow_eq (sub : Subscription)
    (grace_period now : Nat)
    (hstat : sub.status = .Active ∨ sub.status = .GracePeriod)
    (hsum : sub.last_payment_timestamp + sub.interval_seconds ≤ U64_MAX)
    (hnow : sub.last_payment_timestamp + sub.interval_seconds ≤ now)
    (hbal : sub.prepaid_balance < sub.amount)
    (hov : U64_MAX < sub.last_payment_timestamp + sub.interval_seconds +
      grace_period) :
    charge_one (some sub) grace_period now = .errNoWrite .Overflow := by
  have hadd : u64_checked_add sub.last_payment_timestamp sub.interval_seconds
      = some (sub.last_payment_timestamp + sub.interval_seconds) := by
    simp [u64_checked_add, hsum]
  have hlt : ¬ now < sub.last_payment_timestamp + sub.interval_seconds := by
    omega
  have hadd2 : u64_checked_add
      (sub.last_payment_timestamp + sub.interval_seconds) grace_period =
      none := by
    simp [u64_checked_add]
    omega
  rcases hstat with h | h <;>
    simp [charge_one, h, hadd, hlt, hbal, hadd2]

/-- Closed form of the already-GracePeriod insufficient-funds branch:
error without a write. -/
lemma charge_one_grace_nowrite_eq (sub : Subscription)
    (grace_period now : Nat)
    (hgp : sub.status = .GracePeriod)
    (hsum : sub.last_payment_timestamp + sub.interval_seconds ≤ U64_MAX)
    (hnow : sub.last_payment_timestamp + sub.interval_seconds ≤ now)
    (hbal : sub.prepaid_balance < sub.amount)
    (hgok : sub.last_payment_timestamp + sub.interval_seconds +
      grace_period ≤ U64_MAX)
    (hwin : now < sub.last_payment_timestamp + sub.interval_seconds +
      grace_period) :
    charge_one (some sub) grace_period now =
      .errNoWrite .InsufficientBalance := by
  have hadd : u64_checked_add sub.last_payment_timestamp sub.interval_seconds
      = some (sub.last_payment_timestamp + sub.interval_seconds) := by
    simp [u64_checked_add, hsum]
  have hlt : ¬ now < sub.last_payment_timestamp + sub.interval_seconds := by
    omega
  have hadd2 : u64_checked_add
      (sub.last_payment_timestamp + sub.interval_seconds) grace_period =
      some (sub.last_payment_timestamp + sub.interval_seconds +
        grace_period) := by
    simp [u64_checked_add, hgok]
  simp [charge_one, hgp, hadd, hlt, hbal, hadd2, hwin]

/-- Closed form of the Active insufficient-funds branch inside the grace
window: error, with the GracePeriod status write retained. -/
lemma charge_one_grace_write_eq (sub : Subscription)
    (grace_period now : Nat)
    (hact : sub.status = .Active)
    (hsum : sub.last_payment_timestamp + sub.interval_seconds ≤ U64_MAX)
    (hnow : sub.last_payment_timestamp + sub.interval_seconds ≤ now)
    (hbal : sub.prepaid_balance < sub.amount)
    (hgok : sub.last_payment_timestamp + sub.interval_seconds +
      grace_period ≤ U64_MAX)
    (hwin : now < sub.last_payment_timestamp + sub.interval_seconds +
      grace_period) :
    charge_one (some sub) grace_period now =
      .errWrite .InsufficientBalance { sub with status := .GracePeriod } := by
  have hadd : u64_checked_add sub.last_payment_timestamp sub.interval_seconds
      = some (sub.last_payment_timestamp + sub.interval_seconds) := by
    simp [u64_checked_add, hsum]
  have hlt : ¬ now < sub.last_payment_timestamp + sub.interval_seconds := by
    omega
  have hadd2 : u64_checked_add
      (sub.last_payment_timestamp + sub.interval_seconds) grace_period =
      some (sub.last_payment_timestamp + sub.interval_seconds +
        grace_period) := by
    simp [u64_checked_add, hgok]
  simp [charge_one, hact, hadd, hlt, hbal, hadd2, hwin,
    validate_status_transition, get_allowed_transitions]

/-- Closed form of the expired-grace branch: error, with the
InsufficientBalance status write retained. -/
lemma charge_one_ib_write_eq (sub : Subscription) (grace_period now : Nat)
    (hstat : sub.status = .Active ∨ sub.status = .GracePeriod)
    (hsum : sub.last_payment_timestamp + sub.interval_seconds ≤ U64_MAX)
    (hnow : sub.last_payment_timestamp + sub.interval_seconds ≤ now)
    (hbal : sub.prepaid_balance < sub.amount)
    (hgok : sub.last_payment_timestamp + sub.interval_seconds +
      grace_period ≤ U64_MAX)
    (hexp : sub.last_payment_timestamp + sub.interval_seconds +
      grace_period ≤ now) :
    charge_one (some sub) grace_period now =
      .errWrite .InsufficientBalance
        { sub with status := .InsufficientBalance } := by
  have hadd : u64_checked_add sub.last_payment_timestamp sub.interval_seconds
      = some (sub.last_payment_timestamp + sub.interval_seconds) := by
    simp [u64_checked_add, hsum]
  have hlt : ¬ now < sub.last_payment_timestamp + sub.interval_seconds := by
    omega
  have hadd2 : u64_checked_add
      (sub.last_payment_timestamp + sub.interval_seconds) grace_period =
      some (sub.last_payment_timestamp + sub.interval_seconds +
        grace_period) := by
    simp [u64_checked_add, hgok]
  have hnwin : ¬ now < sub.last_payment_timestamp + sub.interval_seconds +
      grace_period := by omega
  rcases hstat with h | h <;>
    simp [charge_one, h, hadd, hlt, hbal, hadd2, hnwin,
      validate_status_transition, get_allowed_transitions]

/-- Closed form of the sufficient-funds branch of `charge_one`, keeping
the checked subtraction symbolic. -/
lemma charge_one_sufficient_eq (sub : Subscription) (grace_period now : Nat)
    (hstat : sub.status = .Active ∨ sub.status = .GracePeriod)
    (hsum : sub.last_payment_timestamp + sub.interval_seconds ≤ U64_MAX)
    (hnow : sub.last_payment_timestamp + sub.interval_seconds ≤ now)
    (hbal : sub.amount ≤ sub.prepaid_balance) :
    charge_one (some sub) grace_period now =
      match i128_checked_sub sub.prepaid_balance sub.amount with
      | none => .errNoWrite .Overflow
      | some newBal =>
        .ok { sub with prepaid_balance := newBal,
                       last_payment_timestamp := now,
                       status := .Active } := by
  have hadd : u64_checked_add sub.last_payment_timestamp sub.interval_seconds
      = some (sub.last_payment_timestamp + sub.interval_seconds) := by
    simp [u64_checked_add, hsum]
  have hlt : ¬ now < sub.last_payment_timestamp + sub.interval_seconds := by
    omega
  have hblt : ¬ sub.prepaid_balance < sub.amount := not_lt.mpr hbal
  cases hcs : i128_checked_sub sub.prepaid_balance sub.amount with
  | none =>
    rcases hstat with h | h <;> simp [charge_one, h, hadd, hlt, hblt, hcs]
  | some nb =>
    rcases hstat with h | h <;>
      simp [charge_one, h, hadd, hlt, hblt, hcs, validate_status_transition,
        get_allowed_transitions]

/-- Past the interval check, `charge_one` can no longer report
`IntervalNotElapsed`. -/
lemma charge_one_no_interval_err (sub : Subscription) (grace_period now : Nat)
    (hstat : sub.status = .Active ∨ sub.status = .GracePeriod)
    (hsum : sub.last_payment_timestamp + sub.interval_seconds ≤ U64_MAX)
    (hnow : sub.last_payment_timestamp + sub.interval_seconds ≤ now) :
    charge_one (some sub) grace_period now ≠
      .errNoWrite .IntervalNotElapsed := by
  intro heq
  have hadd : u64_checked_add sub.last_payment_timestamp sub.interval_seconds
      = some (sub.last_payment_timestamp + sub.interval_seconds) := by
    simp [u64_checked_add, hsum]
  have hlt : ¬ now < sub.last_payment_timestamp + sub.interval_seconds := by
    omega
  rcases hstat with h | h <;>
    simp only [charge_one, h, hadd, hlt] at heq <;>
    (repeat' split at heq) <;>
    simp_all [validate_status_transition, get_allowed_transitions]

/-- The batch loop is length-preserving. -/
lemma batch_charge_loop_length (grace_period now : Nat) :
    ∀ (ids : List Nat) (st : Store),
      (batch_charge_loop st grace_period now ids).length = ids.length := by
  intro ids
  induction ids with
  | nil => intro st; simp [batch_charge_loop]
  | cons id rest ih => intro st; simp [batch_charge_loop, ih]

end StellaBill

namespace StellaBill

/-! ## Claim theorems -/

/-- C6: the transition table is exactly the five rows of §4.1, a
self-transition is always valid (short-circuited before the table), and
`validate_status_transition` fails with `InvalidStatusTransition` on every
other pair. -/
theorem C6_transition_table :
    (∀ s : SubscriptionStatus, validate_status_transition s s = .ok ()) ∧
    get_allowed_transitions .Active =
      [.Paused, .Cancelled, .InsufficientBalance, .GracePeriod] ∧
    get_allowed_transitions .Paused = [.Active, .Cancelled] ∧
    get_allowed_transitions .GracePeriod = [.Active, .InsufficientBalance] ∧
    get_allowed_transitions .InsufficientBalance = [.Active, .Cancelled] ∧
    get_allowed_transitions .Cancelled = [] ∧
    (∀ f t : SubscriptionStatus,
      validate_status_transition f t = .ok () ↔
        f = t ∨ (get_allowed_transitions f).contains t = true) ∧
    (∀ f t : SubscriptionStatus,
      f ≠ t → (get_allowed_transitions f).contains t = false →
        validate_status_transition f t = .error .InvalidStatusTransition) := by
  refine ⟨?_, rfl, rfl, rfl, rfl, rfl, ?_, ?_⟩
  · decide
  · decide
  · decide

/-- C4: any of the statuses Paused, Cancelled or InsufficientBalance is
rejected with `NotActive` and no mutation, for all balances, amounts and
times — including timestamp values whose sum would overflow. -/
theorem C4_not_active_total (sub : Subscription) (grace_period now : Nat)
    (hstat : sub.status = .Paused ∨ sub.status = .Cancelled ∨
      sub.status = .InsufficientBalance) :
    charge_one (some sub) grace_period now = .errNoWrite .NotActive := by
  rcases hstat with h | h | h <;> simp [charge_one, h]

/-- C4 witness: a Paused subscription with ample funds and elapsed time
(and an overflowing timestamp sum) is still rejected with `NotActive`. -/
theorem C4_not_active_witness :
    charge_one (some w4sub) 0 50 = .errNoWrite .NotActive :=
  C4_not_active_total w4sub 0 50 (Or.inl rfl)

/-- C10: when the stored status is already Cancelled, `cancel_subscription`
short-circuits to success before the subscriber/merchant check, for any
authorizer, and writes nothing. -/
theorem C10_cancel_already_cancelled (sub : Subscription) (authorizer : Nat)
    (h : sub.status = .Cancelled) :
    cancel_subscription (some sub) authorizer = .ok none := by
  simp [cancel_subscription, h]

/-- C10 witness: an authorizer who is neither the subscriber nor the
merchant still gets success on an already-Cancelled record. -/
theorem C10_cancel_witness :
    cancel_subscription (some w10sub) 999 = .ok none :=
  C10_cancel_already_cancelled w10sub 999 rfl

/-- C1: with an Active or GracePeriod status, funds covering the amount and
an elapsed interval (no timestamp overflow), `charge_one` succeeds,
deducts exactly the amount, sets `last_payment_timestamp` to `now`, turns
a GracePeriod status back to Active, and changes no other field. -/
theorem C1_successful_charge (sub : Subscription) (grace_period now : Nat)
    (hstat : sub.status = .Active ∨ sub.status = .GracePeriod)
    (hamt : 0 < sub.amount)
    (hbal : sub.amount ≤ sub.prepaid_balance)
    (hbalmax : sub.prepaid_balance ≤ I128_MAX)
    (hsum : sub.last_payment_timestamp + sub.interval_seconds ≤ U64_MAX)
    (hnow : sub.last_payment_timestamp + sub.interval_seconds ≤ now) :
    charge_one (some sub) grace_period now =
      .ok { sub with prepaid_balance := sub.prepaid_balance - sub.amount,
                     last_payment_timestamp := now,
                     status := .Active } :=
  charge_one_success_eq sub grace_period now hstat hamt hbal hbalmax hsum hnow

/-- C1 witness: `w1sub` (Active, amount 5, balance 12, interval elapsed)
charged at 115 with grace 3 succeeds with balance 7 and timestamp 115. -/
theorem C1_successful_charge_witness :
    charge_one (some w1sub) 3 115 =
      .ok { w1sub with prepaid_balance := 7,
                       last_payment_timestamp := 115,
                       status := .Active } := by
  have h := C1_successful_charge w1sub 3 115 (Or.inl rfl) (by decide)
    (by decide) (by decide) (by decide) (by decide)
  simpa [w1sub] using h

/-- C2: insufficient funds after an elapsed interval: within the grace
window the call fails with `InsufficientBalance`, writing the status flip
to GracePeriod exactly when the status was not already GracePeriod (and
changing nothing else); past the grace window the call fails with
`InsufficientBalance` and persists status InsufficientBalance.  The writes
are retained despite the failed call. -/
theorem C2_insufficient_balance_grace (sub : Subscription)
    (grace_period now : Nat)
    (hstat : sub.status = .Active ∨ sub.status = .GracePeriod)
    (hbal : sub.prepaid_balance < sub.amount)
    (hsum : sub.last_payment_timestamp + sub.interval_seconds ≤ U64_MAX)
    (hnow : sub.last_payment_timestamp + sub.interval_seconds ≤ now)
    (hnowmax : now ≤ U64_MAX) :
    (now < sub.last_payment_timestamp + sub.interval_seconds + grace_period →
      sub.last_payment_timestamp + sub.interval_seconds + grace_period ≤
          U64_MAX →
      (sub.status = .GracePeriod →
        charge_one (some sub) grace_period now =
          .errNoWrite .InsufficientBalance) ∧
      (sub.status ≠ .GracePeriod →
        charge_one (some sub) grace_period now =
          .errWrite .InsufficientBalance
            { sub with status := .GracePeriod })) ∧
    (sub.last_payment_timestamp + sub.interval_seconds + grace_period ≤
        now →
      charge_one (some sub) grace_period now =
        .errWrite .InsufficientBalance
          { sub with status := .InsufficientBalance }) := by
  have hadd : u64_checked_add sub.last_payment_timestamp sub.interval_seconds
      = some (sub.last_payment_timestamp + sub.interval_seconds) := by
    simp [u64_checked_add, hsum]
  have hlt : ¬ now < sub.last_payment_timestamp + sub.interval_seconds := by
    omega
  constructor
  · intro hwin hgok
    have hadd2 : u64_checked_add
        (sub.last_payment_timestamp + sub.interval_seconds) grace_period =
        some (sub.last_payment_timestamp + sub.interval_seconds +
          grace_period) := by
      simp [u64_checked_add, hgok]
    constructor
    · intro h
      simp [charge_one, h, hadd, hlt, hbal, hadd2, hwin]
    · intro h
      rcases hstat with h2 | h2
      · simp [charge_one, h2, hadd, hlt, hbal, hadd2, hwin,
          validate_status_transition, get_allowed_transitions]
      · exact absurd h2 h
  · intro hexp
    have hgok : sub.last_payment_timestamp + sub.interval_seconds +
        grace_period ≤ U64_MAX := by omega
    have hadd2 : u64_checked_add
        (sub.last_payment_timestamp + sub.interval_seconds) grace_period =
        some (sub.last_payment_timestamp + sub.interval_seconds +
          grace_period) := by
      simp [u64_checked_add, hgok]
    have hnwin : ¬ now < sub.last_payment_timestamp + sub.interval_seconds +
        grace_period := by omega
    rcases hstat with h2 | h2 <;>
      simp [charge_one, h2, hadd, hlt, hbal, hadd2, hnwin,
        validate_status_transition, get_allowed_transitions]

/-- C2 witness: at 115 (inside the 100-second grace window) an Active
record flips to GracePeriod with the error, a GracePeriod record errors
without a write; at 210 (window expired) the status becomes
InsufficientBalance. -/
theorem C2_insufficient_balance_grace_witness :
    charge_one (some w2subActive) 100 115 =
      .errWrite .InsufficientBalance
        { w2subActive with status := .GracePeriod } ∧
    charge_one (some w2subGrace) 100 115 =
      .errNoWrite .InsufficientBalance ∧
    charge_one (some w2subGrace) 100 210 =
      .errWrite .InsufficientBalance
        { w2subGrace with status := .InsufficientBalance } := by
  refine ⟨?_, ?_, ?_⟩
  · exact ((C2_insufficient_balance_grace w2subActive 100 115 (Or.inl rfl)
      (by decide) (by decide) (by decide) (by decide)).1 (by decide)
      (by decide)).2 (by decide)
  · exact ((C2_insufficient_balance_grace w2subGrace 100 115 (Or.inr rfl)
      (by decide) (by decide) (by decide) (by decide)).1 (by decide)
      (by decide)).1 rfl
  · exact (C2_insufficient_balance_grace w2subGrace 100 210 (Or.inr rfl)
      (by decide) (by decide) (by decide) (by decide)).2 (by decide)

/-- C3: with an eligible status and no timestamp overflow, `charge_one`
fails with `IntervalNotElapsed` (mutating nothing) exactly when `now` is
strictly before `last_payment_timestamp + interval_seconds`; at the exact
boundary the check passes and the charge succeeds when funds suffice. -/
theorem C3_interval_boundary (sub : Subscription) (grace_period now : Nat)
    (hstat : sub.status = .Active ∨ sub.status = .GracePeriod)
    (hsum : sub.last_payment_timestamp + sub.interval_seconds ≤ U64_MAX) :
    (charge_one (some sub) grace_period now =
        .errNoWrite .IntervalNotElapsed ↔
      now < sub.last_payment_timestamp + sub.interval_seconds) ∧
    (now = sub.last_payment_timestamp + sub.interval_seconds →
      0 < sub.amount → sub.amount ≤ sub.prepaid_balance →
      sub.prepaid_balance ≤ I128_MAX →
      charge_one (some sub) grace_period now =
        .ok { sub with prepaid_balance := sub.prepaid_balance - sub.amount,
                       last_payment_timestamp := now,
                       status := .Active }) := by
  have hadd : u64_checked_add sub.last_payment_timestamp sub.interval_seconds
      = some (sub.last_payment_timestamp + sub.interval_seconds) := by
    simp [u64_checked_add, hsum]
  constructor
  · constructor
    · intro heq
      by_contra hnlt
      exact charge_one_no_interval_err sub grace_period now hstat hsum
        (by omega) heq
    · intro hlt
      rcases hstat with h | h <;> simp [charge_one, h, hadd, hlt]
  · intro hb hamt hbal hbalmax
    exact charge_one_success_eq sub grace_period now hstat hamt hbal hbalmax
      hsum (by omega)

/-- C3 witness: one second early the charge is rejected with
`IntervalNotElapsed`; at the exact boundary it succeeds. -/
theorem C3_interval_boundary_witness :
    charge_one (some w1sub) 0 109 = .errNoWrite .IntervalNotElapsed ∧
    charge_one (some w1sub) 0 110 =
      .ok { w1sub with prepaid_balance := 7,
                       last_payment_timestamp := 110,
                       status := .Active } := by
  constructor
  · exact (C3_interval_boundary w1sub 0 109 (Or.inl rfl) (by decide)).1.mpr
      (by decide)
  · have h := (C3_interval_boundary w1sub 0 110 (Or.inl rfl) (by decide)).2
      (by decide) (by decide) (by decide) (by decide)
    simpa [w1sub] using h

/-- C5: when `last_payment_timestamp + interval_seconds` exceeds the u64
maximum — or, on the insufficient-funds path, when
`next_allowed + grace_period_seconds` does — `charge_one` fails with
`Overflow` and performs no storage mutation. -/
theorem C5_overflow_guard (sub : Subscription) (grace_period now : Nat)
    (hstat : sub.status = .Active ∨ sub.status = .GracePeriod) :
    (U64_MAX < sub.last_payment_timestamp + sub.interval_seconds →
      charge_one (some sub) grace_period now = .errNoWrite .Overflow) ∧
    (sub.last_payment_timestamp + sub.interval_seconds ≤ U64_MAX →
      sub.last_payment_timestamp + sub.interval_seconds ≤ now →
      sub.prepaid_balance < sub.amount →
      U64_MAX < sub.last_payment_timestamp + sub.interval_seconds +
        grace_period →
      charge_one (some sub) grace_period now = .errNoWrite .Overflow) := by
  constructor
  · intro hov
    have hadd : u64_checked_add sub.last_payment_timestamp
        sub.interval_seconds = none := by
      simp [u64_checked_add]
      omega
    rcases hstat with h | h <;> simp [charge_one, h, hadd]
  · intro hsum hnow hbal hov
    have hadd : u64_checked_add sub.last_payment_timestamp
        sub.interval_seconds =
        some (sub.last_payment_timestamp + sub.interval_seconds) := by
      simp [u64_checked_add, hsum]
    have hlt : ¬ now < sub.last_payment_timestamp + sub.interval_seconds := by
      omega
    have hadd2 : u64_checked_add
        (sub.last_payment_timestamp + sub.interval_seconds) grace_period =
        none := by
      simp [u64_checked_add]
      omega
    rcases hstat with h | h <;>
      simp [charge_one, h, hadd, hlt, hbal, hadd2]

/-- C5 witness: a timestamp sum just past the u64 maximum yields
`Overflow`; so does a grace-window end past the maximum on the
insufficient-funds path. -/
theorem C5_overflow_guard_witness :
    charge_one (some w5subLate) 0 50 = .errNoWrite .Overflow ∧
    charge_one (some w5subGrace) (2 ^ 64 - 1) 5 = .errNoWrite .Overflow := by
  constructor
  · exact (C5_overflow_guard w5subLate 0 50 (Or.inl rfl)).1 (by decide)
  · exact (C5_overflow_guard w5subGrace (2 ^ 64 - 1) 5 (Or.inl rfl)).2
      (by decide) (by decide) (by decide) (by decide)

/-- C9: starting from a non-negative balance and positive amount, any
record persisted by `charge_one` — on success or on the status-writing
failure branches — keeps the balance non-negative and never decreases
`last_payment_timestamp`. -/
theorem C9_balance_timestamp_invariants (sub : Subscription)
    (grace_period now : Nat) (p : Subscription)
    (hbal0 : 0 ≤ sub.prepaid_balance) (hamt : 0 < sub.amount)
    (hp : persisted_of (charge_one (some sub) grace_period now) = some p) :
    0 ≤ p.prepaid_balance ∧
    sub.last_payment_timestamp ≤ p.last_payment_timestamp := by
  by_cases hstat : sub.status = .Active ∨ sub.status = .GracePeriod
  · by_cases hsum :
        sub.last_payment_timestamp + sub.interval_seconds ≤ U64_MAX
    · by_cases hlt : now < sub.last_payment_timestamp + sub.interval_seconds
      · rw [charge_one_interval_eq sub grace_period now hstat hsum hlt] at hp
        simp [persisted_of] at hp
      · have hnow : sub.last_payment_timestamp + sub.interval_seconds ≤
            now := by omega
        by_cases hb : sub.prepaid_balance < sub.amount
        · by_cases hgok : sub.last_payment_timestamp + sub.interval_seconds +
              grace_period ≤ U64_MAX
          · by_cases hwin : now < sub.last_payment_timestamp +
                sub.interval_seconds + grace_period
            · by_cases hgp : sub.status = .GracePeriod
              · rw [charge_one_grace_nowrite_eq sub grace_period now hgp
                  hsum hnow hb hgok hwin] at hp
                simp [persisted_of] at hp
              · have hact : sub.status = .Active := by
                  rcases hstat with h | h
                  · exact h
                  · exact absurd h hgp
                rw [charge_one_grace_write_eq sub grace_period now hact
                  hsum hnow hb hgok hwin] at hp
                simp only [persisted_of, Option.some.injEq] at hp
                subst hp
                exact ⟨by simpa using hbal0, by simp⟩
            · rw [charge_one_ib_write_eq sub grace_period now hstat hsum
                hnow hb hgok (by omega)] at hp
              simp only [persisted_of, Option.some.injEq] at hp
              subst hp
              exact ⟨by simpa using hbal0, by simp⟩
          · rw [charge_one_grace_overflow_eq sub grace_period now hstat hsum
              hnow hb (by omega)] at hp
            simp [persisted_of] at hp
        · have hble : sub.amount ≤ sub.prepaid_balance := by omega
          rw [charge_one_sufficient_eq sub grace_period now hstat hsum hnow
            hble] at hp
          cases hcs : i128_checked_sub sub.prepaid_balance sub.amount with
          | none =>
            rw [hcs] at hp
            simp [persisted_of] at hp
          | some nb =>
            have hnb : nb = sub.prepaid_balance - sub.amount := by
              simp [i128_checked_sub] at hcs
              omega
            rw [hcs] at hp
            simp only [persisted_of, Option.some.injEq] at hp
            subst hp
            constructor
            · simp only [hnb]
              omega
            · simpa using (by omega :
                sub.last_payment_timestamp ≤ now)
    · rw [charge_one_ts_overflow_eq sub grace_period now hstat
        (by omega)] at hp
      simp [persisted_of] at hp
  · have h3 : sub.status = .Paused ∨ sub.status = .Cancelled ∨
        sub.status = .InsufficientBalance := by
      cases h : sub.status <;> simp_all
    rw [charge_one_not_active_eq sub grace_period now h3] at hp
    simp [persisted_of] at hp

/-- C9 witness: the successful charge of `w1sub` at 110 persists balance 7
(non-negative) and timestamp 110 (not below 100). -/
theorem C9_balance_timestamp_invariants_witness :
    0 ≤ w9persisted.prepaid_balance ∧
    w1sub.last_payment_timestamp ≤ w9persisted.last_payment_timestamp :=
  C9_balance_timestamp_invariants w1sub 0 110 w9persisted (by decide)
    (by decide) (by decide)

/-- C7: `do_batch_charge` refuses with `Unauthorized` when no administrator
is configured (before touching any item); with an administrator it returns
one `BatchChargeResult` per input id, in order, with `error_code = 0` iff
the item succeeded; the empty input yields the empty output; and each item
is charged independently against the store as evolved by its predecessors,
a failure never aborting the tail. -/
theorem C7_batch_charge (admin : Nat) (st : Store) (grace_period now : Nat)
    (ids : List Nat) :
    do_batch_charge none st grace_period now ids = .error .Unauthorized ∧
    ∃ rs, do_batch_charge (some admin) st grace_period now ids = .ok rs ∧
      rs.length = ids.length ∧
      (∀ i (h : i < rs.length),
        ((rs.get ⟨i, h⟩).error_code = 0 ↔ (rs.get ⟨i, h⟩).success = true)) ∧
      (ids = [] → rs = []) ∧
      (∀ id rest, ids = id :: rest →
        rs = (apply_charge st grace_period now id).1 ::
          batch_charge_loop (apply_charge st grace_period now id).2
            grace_period now rest) := by
  refine ⟨rfl, batch_charge_loop st grace_period now ids, rfl,
    batch_charge_loop_length grace_period now ids st, ?_, ?_, ?_⟩
  · intro i h
    exact batch_charge_loop_code_iff grace_period now ids st _
      (List.get_mem _ _ _)
  · intro h
    subst h
    rfl
  · intro id rest h
    subst h
    rfl

/-- C8: the top-up estimator fails with `NotFound` on an unknown id, and on
a known record returns `max(amount * n - prepaid_balance, 0)` — in
particular `0` when `n = 0` and `0` whenever the balance already covers
`amount * n` — and never fails for any balance. -/
theorem C8_estimate_topup (sub : Subscription) (n : Nat)
    (hbal0 : 0 ≤ sub.prepaid_balance) :
    estimate_topup_for_intervals none n = .error .NotFound ∧
    estimate_topup_for_intervals (some sub) n =
      .ok (max (sub.amount * (n : Int) - sub.prepaid_balance) 0) ∧
    estimate_topup_for_intervals (some sub) 0 = .ok 0 ∧
    (sub.amount * (n : Int) ≤ sub.prepaid_balance →
      estimate_topup_for_intervals (some sub) n = .ok 0) ∧
    (∃ v, estimate_topup_for_intervals (some sub) n = .ok v) := by
  refine ⟨rfl, rfl, ?_, ?_, ⟨_, rfl⟩⟩
  · simp [estimate_topup_for_intervals]
    omega
  · intro hcov
    simp [estimate_topup_for_intervals]
    omega

/-- C8 witness: a record with balance 30 and amount 10 needs no top-up for
3 intervals, needs 20 for 5, and needs nothing for 0 intervals. -/
theorem C8_estimate_topup_witness :
    estimate_topup_for_intervals (some w8sub) 5 = .ok 20 := by
  have h := C8_estimate_topup w8sub 5 (by decide)
  simpa [w8sub] using h.2.1

end StellaBill
